import Mathlib

/-!
Verification of the bounded-counter domain model (`src/cucumbers.py`) and the
BDD step handlers (`src/tests/step_defs/test_cucumbers_steps.py`) of the
repository, as a shallow embedding in Lean 4.

Python integers are arbitrary precision, so counts are modelled as `Int`.
A raised Python exception is modelled as a `PyError` value carried by
`Except`; a Python method that mutates `self` becomes a function returning
the new state (so "no mutation on failure" is structural: the caller keeps
the old state when an `Except.error` comes back).
-/

namespace Cucumbers

/-- The Python exception classes that appear in the embedded code. -/
inductive ExcType where
  | valueError
  | assertionError
deriving DecidableEq, Repr

/-- A raised Python exception: its class and its message string. -/
structure PyError where
  excType : ExcType
  msg : String
deriving DecidableEq, Repr

/-- State of `CucumberBasket`: the private fields `_count` and `_max_count`.
The properties `count` and `max_count` are plain readers of these fields. -/
structure CucumberBasket where
  count : Int
  max_count : Int
deriving DecidableEq, Repr

/-- `CucumberBasket.__init__(initial_count, max_count)` from src/cucumbers.py:
rejects a negative initial count, then a negative max count, else stores both.
It never compares `initial_count` with `max_count`. -/
def init (initial_count : Int) (max_count : Int) : Except PyError CucumberBasket :=
  if initial_count < 0 then
    .error ⟨.valueError, "Initial count cannot be negative"⟩
  else if max_count < 0 then
    .error ⟨.valueError, "Max count cannot be negative"⟩
  else
    .ok { count := initial_count, max_count := max_count }

/-- Property `full`: `count == max_count`. -/
def full (b : CucumberBasket) : Bool :=
  b.count == b.max_count

/-- Property `empty`: `count == 0`. -/
def empty (b : CucumberBasket) : Bool :=
  b.count == 0

/-- `CucumberBasket.add(count)`: computes `new_count = count + count_arg`,
raises `ValueError("Attempted to add too many cucumbers")` when
`new_count > max_count`, else commits `_count = new_count`. -/
def add (b : CucumberBasket) (count : Int) : Except PyError CucumberBasket :=
  let new_count := b.count + count
  if new_count > b.max_count then
    .error ⟨.valueError, "Attempted to add too many cucumbers"⟩
  else
    .ok { b with count := new_count }

/-- `CucumberBasket.remove(count)`: computes `new_count = count - count_arg`,
raises `ValueError("Basket is already empty")` when `new_count < 0`,
else commits `_count = new_count`. -/
def remove (b : CucumberBasket) (count : Int) : Except PyError CucumberBasket :=
  let new_count := b.count - count
  if new_count < 0 then
    .error ⟨.valueError, "Basket is already empty"⟩
  else
    .ok { b with count := new_count }

/-- One call made against a basket: either `add(n)` or `remove(n)`. -/
inductive Op where
  | add (n : Int)
  | remove (n : Int)
deriving DecidableEq, Repr

/-- The integer argument an operation passes to the basket. -/
def Op.arg : Op → Int
  | .add n => n
  | .remove n => n

/-- Dispatch one call to the corresponding method. -/
def applyOp (b : CucumberBasket) : Op → Except PyError CucumberBasket
  | .add n => add b n
  | .remove n => remove b n

/-- One call where a raised exception leaves the state as it was: the caller
keeps the old object when the method raises before committing. -/
def step (b : CucumberBasket) (op : Op) : CucumberBasket :=
  match applyOp b op with
  | .ok b2 => b2
  | .error _ => b

/-- A sequence of calls, each failed call leaving the state unchanged. -/
def run (b : CucumberBasket) (ops : List Op) : CucumberBasket :=
  ops.foldl step b

/-- A sequence of calls that stops at the first raised exception. -/
def runExc (b : CucumberBasket) : List Op → Except PyError CucumberBasket
  | [] => .ok b
  | op :: ops =>
    match applyOp b op with
    | .ok b2 => runExc b2 ops
    | .error e => .error e

/-- The signed delta an operation applies to the count when it succeeds. -/
def Op.delta : Op → Int
  | .add n => n
  | .remove n => -n

/-- Sum of the signed deltas of a call sequence. -/
def sumDeltas (ops : List Op) : Int :=
  (ops.map Op.delta).sum

/-- The documented state invariant of the counter. -/
def Inv (b : CucumberBasket) : Prop :=
  0 ≤ b.count ∧ b.count ≤ b.max_count

instance (b : CucumberBasket) : Decidable (Inv b) := by
  unfold Inv; infer_instance

/-- Modelled from the spec: the default `max_count` is `basket_capacity`,
imported from `tests/basketconfig.py`, a file absent from the sources; the
spec constrains it only by `capacity: integer ≥ 0`, so the per-scenario
fixture `basket()` (which builds `CucumberBasket(initial_count=0)`) takes
the capacity as an explicit parameter here. -/
def fixture_basket (basket_capacity : Int) : Except PyError CucumberBasket :=
  init 0 basket_capacity

/-- Given-step handler `basket_has_cucumbers(basket, initial)`:
calls `basket.add(initial)` (re-raising any exception) and returns the basket. -/
def basket_has_cucumbers (basket : CucumberBasket) (initial : Int) :
    Except PyError CucumberBasket :=
  add basket initial

/-- Then-step handler `basket_has_total_cucumbers(basket, total)`: reads
`basket.count` and asserts it equals `total`, raising an `AssertionError`
with message `f"Expected {total} cucumbers but found {actual_count}"`
on mismatch (the handler re-raises the assertion unchanged). -/
def basket_has_total_cucumbers (basket : CucumberBasket) (total : Int) :
    Except PyError Unit :=
  let actual_count := basket.count
  if actual_count == total then
    .ok ()
  else
    .error ⟨.assertionError,
      "Expected " ++ toString total ++ " cucumbers but found " ++ toString actual_count⟩

end Cucumbers

namespace Cucumbers

/-- C7: if `add(n)` succeeds and the immediately following `remove(n)` also
succeeds, the count after the pair equals the count before `add(n)`. -/
theorem C7_round_trip (b b1 b2 : CucumberBasket) (n : Int)
    (h1 : add b n = .ok b1) (h2 : remove b1 n = .ok b2) :
    b2.count = b.count := by
  unfold add at h1
  unfold remove at h2
  by_cases hc1 : b.count + n > b.max_count
  · simp [hc1] at h1
  · simp [hc1] at h1
    by_cases hc2 : b1.count - n < 0
    · simp [hc2] at h2
    · simp [hc2] at h2
      have hb1 : b1.count = b.count + n := by rw [← h1]
      have hb2 : b2.count = b1.count - n := by rw [← h2]
      omega

/-- C7 witness: a concrete successful `add(2)` then `remove(2)` pair. -/
theorem C7_round_trip_witness :
    (⟨2, 5⟩ : CucumberBasket).count = (⟨2, 5⟩ : CucumberBasket).count :=
  C7_round_trip ⟨2, 5⟩ ⟨4, 5⟩ ⟨2, 5⟩ 2 rfl rfl

/-- C4: `add(n)` fails with the capacity error exactly when `count + n`
exceeds `max_count`, otherwise commits `count + n`; a failed call leaves the
state unchanged; `add(max_count - count)` succeeds and makes `full` true;
`add(max_count - count + 1)` fails and leaves the state unchanged. -/
theorem C4_add_contract (b : CucumberBasket) (n : Int) :
    (b.max_count < b.count + n →
      add b n = .error ⟨.valueError, "Attempted to add too many cucumbers"⟩ ∧
      step b (.add n) = b) ∧
    (b.count + n ≤ b.max_count →
      add b n = .ok ⟨b.count + n, b.max_count⟩) ∧
    add b (b.max_count - b.count) = .ok ⟨b.max_count, b.max_count⟩ ∧
    full ⟨b.max_count, b.max_count⟩ = true ∧
    add b (b.max_count - b.count + 1) =
      .error ⟨.valueError, "Attempted to add too many cucumbers"⟩ ∧
    step b (.add (b.max_count - b.count + 1)) = b := by
  refine ⟨fun h => ?_, fun h => ?_, ?_, ?_, ?_, ?_⟩
  · constructor
    · simp [add, h]
    · simp [step, applyOp, add, h]
  · simp [add]
    omega
  · simp [add]
  · simp [full]
  · simp [add]
    omega
  · have hgt : b.max_count < b.count + (b.max_count - b.count + 1) := by omega
    simp [step, applyOp, add, hgt]

/-- C4 witness at a concrete basket and argument. -/
theorem C4_add_contract_witness :
    add ⟨2, 5⟩ 7 = .error ⟨.valueError, "Attempted to add too many cucumbers"⟩ ∧
    step ⟨2, 5⟩ (.add 7) = ⟨2, 5⟩ ∧
    add ⟨2, 5⟩ 3 = .ok ⟨5, 5⟩ ∧
    full ⟨5, 5⟩ = true ∧
    add ⟨2, 5⟩ 4 = .error ⟨.valueError, "Attempted to add too many cucumbers"⟩ := by
  have h := C4_add_contract ⟨2, 5⟩ 7
  have h2 := C4_add_contract ⟨2, 5⟩ 3
  refine ⟨(h.1 (by decide)).1, (h.1 (by decide)).2, h2.2.1 (by decide), ?_, ?_⟩
  · exact h.2.2.2.1
  · exact h.2.2.2.2.1

/-- C5: `remove(n)` fails with the underflow error exactly when `count - n`
is negative, otherwise commits `count - n`; a failed call leaves the state
unchanged; `remove(count)` succeeds and makes `empty` true;
`remove(count + 1)` fails and leaves the state unchanged. -/
theorem C5_remove_contract (b : CucumberBasket) (n : Int) :
    (b.count - n < 0 →
      remove b n = .error ⟨.valueError, "Basket is already empty"⟩ ∧
      step b (.remove n) = b) ∧
    (0 ≤ b.count - n →
      remove b n = .ok ⟨b.count - n, b.max_count⟩) ∧
    remove b b.count = .ok ⟨0, b.max_count⟩ ∧
    empty ⟨0, b.max_count⟩ = true ∧
    remove b (b.count + 1) = .error ⟨.valueError, "Basket is already empty"⟩ ∧
    step b (.remove (b.count + 1)) = b := by
  refine ⟨fun h => ?_, fun h => ?_, ?_, ?_, ?_, ?_⟩
  · constructor
    · simp [remove, h]
    · simp [step, applyOp, remove, h]
  · simp [remove]
    omega
  · simp [remove]
  · simp [empty]
  · simp [remove]
  · have hlt : b.count - (b.count + 1) < 0 := by omega
    simp [step, applyOp, remove, hlt]

/-- C5 witness at a concrete basket and argument. -/
theorem C5_remove_contract_witness :
    remove ⟨2, 5⟩ 9 = .error ⟨.valueError, "Basket is already empty"⟩ ∧
    step ⟨2, 5⟩ (.remove 9) = ⟨2, 5⟩ ∧
    remove ⟨2, 5⟩ 2 = .ok ⟨0, 5⟩ ∧
    empty ⟨0, 5⟩ = true ∧
    remove ⟨2, 5⟩ 3 = .error ⟨.valueError, "Basket is already empty"⟩ := by
  have h := C5_remove_contract ⟨2, 5⟩ 9
  refine ⟨(h.1 (by decide)).1, (h.1 (by decide)).2, h.2.2.1, h.2.2.2.1, h.2.2.2.2.1⟩

/-- C8: the Then-step handler succeeds exactly when the basket's count equals
the expected total (it only reads the basket, never returning a changed one),
and on mismatch raises an assertion failure whose message states both values
as "Expected {total} cucumbers but found {actual}". -/
theorem C8_then_step (b : CucumberBasket) (total : Int) :
    (b.count = total → basket_has_total_cucumbers b total = .ok ()) ∧
    (b.count ≠ total → basket_has_total_cucumbers b total =
      .error ⟨.assertionError,
        "Expected " ++ toString total ++ " cucumbers but found " ++ toString b.count⟩) := by
  constructor
  · intro h
    simp [basket_has_total_cucumbers, h]
  · intro h
    simp [basket_has_total_cucumbers, h]

/-- C8 witness at a concrete basket, one matching and one mismatching total. -/
theorem C8_then_step_witness :
    basket_has_total_cucumbers ⟨5, 10⟩ 5 = .ok () ∧
    basket_has_total_cucumbers ⟨4, 10⟩ 5 =
      .error ⟨.assertionError, "Expected 5 cucumbers but found 4"⟩ := by
  constructor
  · exact (C8_then_step ⟨5, 10⟩ 5).1 rfl
  · exact (C8_then_step ⟨4, 10⟩ 5).2 (by decide)

/-- C10: every error the counter raises — invalid construction argument,
capacity exceeded on add, underflow on remove — is a `ValueError`, and the
errors differ only in their message strings, which are exactly the four
documented ones. -/
theorem C10_error_taxonomy (i m n : Int) (b : CucumberBasket) (e1 e2 e3 : PyError) :
    (init i m = .error e1 → e1.excType = .valueError ∧
      (e1.msg = "Initial count cannot be negative" ∨
       e1.msg = "Max count cannot be negative")) ∧
    (add b n = .error e2 →
      e2 = ⟨.valueError, "Attempted to add too many cucumbers"⟩) ∧
    (remove b n = .error e3 →
      e3 = ⟨.valueError, "Basket is already empty"⟩) := by
  refine ⟨fun h1 => ?_, fun h2 => ?_, fun h3 => ?_⟩
  · unfold init at h1
    by_cases hi : i < 0
    · simp [hi] at h1
      simp [← h1]
    · by_cases hm : m < 0
      · simp [hi, hm] at h1
        simp [← h1]
      · simp [hi, hm] at h1
  · unfold add at h2
    by_cases hc : b.count + n > b.max_count
    · simp [hc] at h2
      exact h2.symm
    · simp [hc] at h2
  · unfold remove at h3
    by_cases hc : b.count - n < 0
    · simp [hc] at h3
      exact h3.symm
    · simp [hc] at h3

/-- C10 witness at concrete failing calls of all three kinds. -/
theorem C10_error_taxonomy_witness :
    ((⟨.valueError, "Initial count cannot be negative"⟩ : PyError).excType = .valueError ∧
      ((⟨.valueError, "Initial count cannot be negative"⟩ : PyError).msg =
        "Initial count cannot be negative" ∨
       (⟨.valueError, "Initial count cannot be negative"⟩ : PyError).msg =
        "Max count cannot be negative")) ∧
    (⟨.valueError, "Attempted to add too many cucumbers"⟩ : PyError) =
      ⟨.valueError, "Attempted to add too many cucumbers"⟩ ∧
    (⟨.valueError, "Basket is already empty"⟩ : PyError) =
      ⟨.valueError, "Basket is already empty"⟩ := by
  have h := C10_error_taxonomy (-1) 5 10 ⟨3, 5⟩
    ⟨.valueError, "Initial count cannot be negative"⟩
    ⟨.valueError, "Attempted to add too many cucumbers"⟩
    ⟨.valueError, "Basket is already empty"⟩
  exact ⟨h.1 rfl, h.2.1 rfl, h.2.2 rfl⟩

/-- A call never changes `_max_count`: neither method writes it. -/
theorem step_max_count (b : CucumberBasket) (op : Op) :
    (step b op).max_count = b.max_count := by
  cases op with
  | add n =>
    unfold step applyOp add
    by_cases h : b.count + n > b.max_count <;> simp [h]
  | remove n =>
    unfold step applyOp remove
    by_cases h : b.count - n < 0 <;> simp [h]

/-- A call with a nonnegative argument preserves the invariant
(a failed call keeps the old state, which already satisfied it). -/
theorem step_inv (b : CucumberBasket) (op : Op) (hb : Inv b) (ha : 0 ≤ op.arg) :
    Inv (step b op) := by
  obtain ⟨h0, h1⟩ := hb
  cases op with
  | add n =>
    simp [Op.arg] at ha
    unfold step applyOp add
    by_cases h : b.count + n > b.max_count
    · simpa [h] using And.intro h0 h1
    · simp [h, Inv]
      omega
  | remove n =>
    simp [Op.arg] at ha
    unfold step applyOp remove
    by_cases h : b.count - n < 0
    · simpa [h] using And.intro h0 h1
    · simp [h, Inv]
      omega

/-- A sequence of calls with nonnegative arguments preserves the invariant
and the capacity. -/
theorem run_inv (ops : List Op) (b : CucumberBasket) (hb : Inv b)
    (hops : ∀ op ∈ ops, 0 ≤ op.arg) :
    Inv (run b ops) ∧ (run b ops).max_count = b.max_count := by
  induction ops generalizing b with
  | nil => exact ⟨hb, rfl⟩
  | cons op ops ih =>
    have h1 := step_inv b op hb (hops op (by simp))
    have h2 := step_max_count b op
    have h3 := ih (step b op) h1 (fun o ho => hops o (by simp [ho]))
    simp only [run, List.foldl_cons] at h3 ⊢
    exact ⟨h3.1, h3.2.trans h2⟩

/-- A successful call commits exactly its signed delta to the count and
leaves the capacity alone. -/
theorem applyOp_ok (b b1 : CucumberBasket) (op : Op)
    (h : applyOp b op = .ok b1) :
    b1.count = b.count + op.delta ∧ b1.max_count = b.max_count := by
  cases op with
  | add n =>
    unfold applyOp add at h
    by_cases hc : b.count + n > b.max_count
    · simp [hc] at h
    · simp [hc] at h
      simp [← h, Op.delta]
  | remove n =>
    unfold applyOp remove at h
    by_cases hc : b.count - n < 0
    · simp [hc] at h
    · simp [hc] at h
      simp [← h, Op.delta]
      omega

/-- C1 counterexample: on the invariant-respecting state `⟨0, 5⟩` with
`n = 1 ≥ 0`, `add(-1)` succeeds (committing the negative count `-1`) while
`remove(1)` raises — not the same outcome; symmetrically, on `⟨5, 5⟩`,
`remove(-1)` succeeds (committing `6 > capacity`) while `add(1)` raises. -/
theorem C1_counterexample :
    Inv ⟨0, 5⟩ ∧ 0 ≤ (1 : Int) ∧
    add ⟨0, 5⟩ (-1) = .ok ⟨-1, 5⟩ ∧
    remove ⟨0, 5⟩ 1 = .error ⟨.valueError, "Basket is already empty"⟩ ∧
    Inv ⟨5, 5⟩ ∧
    remove ⟨5, 5⟩ (-1) = .ok ⟨6, 5⟩ ∧
    add ⟨5, 5⟩ 1 = .error ⟨.valueError, "Attempted to add too many cucumbers"⟩ :=
  ⟨by decide, by decide, rfl, rfl, by decide, rfl, rfl⟩

/-- C1 amended: on a state satisfying the invariant and for `n ≥ 0`,
`add(-n)` always succeeds and agrees with `remove(n)` exactly when
`remove(n)`'s own underflow guard would pass (otherwise `add(-n)` commits a
negative count where `remove(n)` raises); dually `remove(-n)` agrees with
`add(n)` exactly when the capacity guard would pass. Each operation applies
only its own single guard: `add(m)` fails iff `count + m > max_count` and
`remove(m)` fails iff `count - m < 0`. -/
theorem C1_negation_asymmetry (b : CucumberBasket) (n : Int)
    (hInv : Inv b) (hn : 0 ≤ n) :
    (add b (-n) = remove b n ↔ 0 ≤ b.count - n) ∧
    (remove b (-n) = add b n ↔ b.count + n ≤ b.max_count) ∧
    (∀ m : Int, (∃ e, add b m = .error e) ↔ b.max_count < b.count + m) ∧
    (∀ m : Int, (∃ e, remove b m = .error e) ↔ b.count - m < 0) := by
  obtain ⟨h0, h1⟩ := hInv
  have hadd : add b (-n) = .ok ⟨b.count - n, b.max_count⟩ := by
    have hc : ¬ b.count + (-n) > b.max_count := by omega
    simp [add, hc]
    omega
  have hrem : remove b (-n) = .ok ⟨b.count + n, b.max_count⟩ := by
    have hc : ¬ b.count - (-n) < 0 := by omega
    simp [remove, hc]
    omega
  refine ⟨?_, ?_, ?_, ?_⟩
  · constructor
    · intro heq
      by_contra hlt
      push_neg at hlt
      have hremn : remove b n = .error ⟨.valueError, "Basket is already empty"⟩ := by
        have hc : b.count - n < 0 := by omega
        simp [remove, hc]
      rw [hadd, hremn] at heq
      exact absurd heq (by simp)
    · intro hge
      have hremn : remove b n = .ok ⟨b.count - n, b.max_count⟩ := by
        have hc : ¬ b.count - n < 0 := by omega
        simp [remove, hc]
      rw [hadd, hremn]
  · constructor
    · intro heq
      by_contra hgt
      push_neg at hgt
      have haddn : add b n = .error ⟨.valueError, "Attempted to add too many cucumbers"⟩ := by
        have hc : b.count + n > b.max_count := by omega
        simp [add, hc]
      rw [hrem, haddn] at heq
      exact absurd heq (by simp)
    · intro hle
      have haddn : add b n = .ok ⟨b.count + n, b.max_count⟩ := by
        have hc : ¬ b.count + n > b.max_count := by omega
        simp [add, hc]
      rw [hrem, haddn]
  · intro m
    constructor
    · rintro ⟨e, he⟩
      by_cases hc : b.count + m > b.max_count
      · omega
      · simp [add, hc] at he
    · intro hc
      have hc2 : b.count + m > b.max_count := hc
      exact ⟨⟨.valueError, "Attempted to add too many cucumbers"⟩, by simp [add, hc2]⟩
  · intro m
    constructor
    · rintro ⟨e, he⟩
      by_cases hc : b.count - m < 0
      · omega
      · simp [remove, hc] at he
    · intro hc
      exact ⟨⟨.valueError, "Basket is already empty"⟩, by simp [remove, hc]⟩

/-- C1 witness at the concrete state `⟨2, 5⟩` and `n = 1`. -/
theorem C1_negation_asymmetry_witness :
    (add ⟨2, 5⟩ (-1) = remove ⟨2, 5⟩ 1 ↔
      0 ≤ (⟨2, 5⟩ : CucumberBasket).count - 1) ∧
    (remove ⟨2, 5⟩ (-1) = add ⟨2, 5⟩ 1 ↔
      (⟨2, 5⟩ : CucumberBasket).count + 1 ≤ (⟨2, 5⟩ : CucumberBasket).max_count) := by
  have h := C1_negation_asymmetry ⟨2, 5⟩ 1 (by decide) (by decide)
  exact ⟨h.1, h.2.1⟩

/-- C2 counterexample: construction succeeds with `initial = 10 > capacity = 5`,
so a freshly constructed counter already violates `count ≤ capacity`; and from
the well-formed state `⟨0, 5⟩`, the single call `add(-1)` succeeds and commits
`count = -1`, violating `0 ≤ count`. -/
theorem C2_counterexample :
    init 10 5 = .ok ⟨10, 5⟩ ∧ ¬ ((10 : Int) ≤ 5) ∧
    init 0 5 = .ok ⟨0, 5⟩ ∧ run ⟨0, 5⟩ [.add (-1)] = ⟨-1, 5⟩ ∧ ¬ ((0 : Int) ≤ -1) :=
  ⟨rfl, by decide, rfl, rfl, by decide⟩

/-- C2 amended: for a counter successfully constructed with
`initial ≤ capacity`, and any sequence of `add`/`remove` calls with
nonnegative arguments (a call that raises leaves the state as it was),
`0 ≤ count ≤ capacity` holds after every prefix of the sequence, and
`max_count` stays the construction-time capacity throughout. -/
theorem C2_invariant (i cap : Int) (b0 : CucumberBasket) (ops : List Op) (k : Nat)
    (hinit : init i cap = .ok b0) (hle : i ≤ cap)
    (hops : ∀ op ∈ ops, 0 ≤ op.arg) :
    Inv (run b0 (ops.take k)) ∧ (run b0 (ops.take k)).max_count = cap := by
  have hb0 : b0 = ⟨i, cap⟩ ∧ 0 ≤ i := by
    unfold init at hinit
    by_cases hi : i < 0
    · simp [hi] at hinit
    · by_cases hc : cap < 0
      · simp [hi, hc] at hinit
      · simp [hi, hc] at hinit
        exact ⟨hinit.symm, by omega⟩
  obtain ⟨hb, hi0⟩ := hb0
  have hInv0 : Inv b0 := by rw [hb]; exact ⟨hi0, hle⟩
  have hops2 : ∀ op ∈ ops.take k, 0 ≤ op.arg :=
    fun op ho => hops op (List.mem_of_mem_take ho)
  have h := run_inv (ops.take k) b0 hInv0 hops2
  refine ⟨h.1, h.2.trans ?_⟩
  rw [hb]

/-- C2 witness: a concrete construction and call sequence (whose middle call
fails and is skipped). -/
theorem C2_invariant_witness :
    Inv (run ⟨2, 5⟩ ([Op.add 1, Op.remove 7, Op.add 2].take 3)) ∧
    (run ⟨2, 5⟩ ([Op.add 1, Op.remove 7, Op.add 2].take 3)).max_count = 5 :=
  C2_invariant 2 5 ⟨2, 5⟩ [Op.add 1, Op.remove 7, Op.add 2] 3 rfl (by decide) (by decide)

/-- C3 counterexample: with `initial = 6 > capacity = 5 ≥ 0`, construction
does not fail — the constructor never compares the two arguments. -/
theorem C3_counterexample :
    init 6 5 = .ok ⟨6, 5⟩ ∧ (5 : Int) ≤ 6 ∧ (0 : Int) ≤ 5 :=
  ⟨rfl, by decide, by decide⟩

/-- C3 amended: construction fails (with a `ValueError`) iff the initial
count is negative or the capacity is negative — `initial ≤ capacity` is not
checked; for every `0 ≤ initial` and `0 ≤ capacity` (in particular
`0 ≤ initial ≤ capacity`) construction succeeds with `count = initial`. -/
theorem C3_construction (i cap : Int) :
    ((∃ e, init i cap = .error e) ↔ i < 0 ∨ cap < 0) ∧
    (0 ≤ i → 0 ≤ cap → init i cap = .ok ⟨i, cap⟩) := by
  constructor
  · constructor
    · rintro ⟨e, he⟩
      by_cases hi : i < 0
      · exact Or.inl hi
      · by_cases hc : cap < 0
        · exact Or.inr hc
        · simp [init, hi, hc] at he
    · intro h
      by_cases hi : i < 0
      · exact ⟨⟨.valueError, "Initial count cannot be negative"⟩, by simp [init, hi]⟩
      · have hc : cap < 0 := by omega
        exact ⟨⟨.valueError, "Max count cannot be negative"⟩, by simp [init, hi, hc]⟩
  · intro h0 h1
    have hi : ¬ i < 0 := by omega
    have hc : ¬ cap < 0 := by omega
    simp [init, hi, hc]

/-- C3 witness: a concrete in-range construction succeeding. -/
theorem C3_construction_witness : init 3 5 = .ok ⟨3, 5⟩ :=
  (C3_construction 3 5).2 (by decide) (by decide)

/-- C6: when every call of a sequence succeeds, the final count is the
initial count plus the sum of added amounts minus the sum of removed
amounts. -/
theorem C6_sum_of_deltas (ops : List Op) (b b2 : CucumberBasket)
    (h : runExc b ops = .ok b2) :
    b2.count = b.count + sumDeltas ops := by
  induction ops generalizing b with
  | nil =>
    simp [runExc] at h
    simp [← h, sumDeltas]
  | cons op ops ih =>
    unfold runExc at h
    cases hop : applyOp b op with
    | error e => rw [hop] at h; exact absurd h (by simp)
    | ok b1 =>
      rw [hop] at h
      simp at h
      have h1 := applyOp_ok b b1 op hop
      have h2 := ih b1 h
      simp [sumDeltas] at h2 ⊢
      omega

/-- C6 witness at a concrete successful call sequence. -/
theorem C6_sum_of_deltas_witness :
    (⟨4, 5⟩ : CucumberBasket).count =
      (⟨2, 5⟩ : CucumberBasket).count + sumDeltas [Op.add 3, Op.remove 1] :=
  C6_sum_of_deltas [Op.add 3, Op.remove 1] ⟨2, 5⟩ ⟨4, 5⟩ rfl

/-- C9: the per-scenario fixture builds the basket with `initial_count = 0`
(and the nonnegative default capacity), so after the Given handler calls
`add(N)` for `0 ≤ N ≤ capacity`, the count is exactly `N`, not `N` on top of
a pre-existing count. -/
theorem C9_given_step (basket_capacity initial : Int)
    (hcap : 0 ≤ basket_capacity) (h0 : 0 ≤ initial) (h1 : initial ≤ basket_capacity) :
    fixture_basket basket_capacity = .ok ⟨0, basket_capacity⟩ ∧
    (⟨0, basket_capacity⟩ : CucumberBasket).count = 0 ∧
    basket_has_cucumbers ⟨0, basket_capacity⟩ initial = .ok ⟨initial, basket_capacity⟩ := by
  refine ⟨?_, rfl, ?_⟩
  · have hz : ¬ (0 : Int) < 0 := by omega
    have hc : ¬ basket_capacity < 0 := by omega
    simp [fixture_basket, init, hz, hc]
  · have hc : ¬ (0 : Int) + initial > basket_capacity := by omega
    simp [basket_has_cucumbers, add, hc]
    omega

/-- C9 witness at capacity 5 and N = 3. -/
theorem C9_given_step_witness :
    fixture_basket 5 = .ok ⟨0, 5⟩ ∧
    (⟨0, 5⟩ : CucumberBasket).count = 0 ∧
    basket_has_cucumbers ⟨0, 5⟩ 3 = .ok ⟨3, 5⟩ :=
  C9_given_step 5 3 (by decide) (by decide) (by decide)

end Cucumbers
